import Mathlib

/-!
Shallow embedding of the chat-session lifecycle and orchestration layer of
the `ai-mock-interviewer` backend (service `llm-orchestrator`):
  * `app/chat_models.py`   — message / session / request data model,
  * `clients/openai_client.py` — the in-memory session store and chat client,
  * `routes/openai_chat.py`    — the HTTP route handlers.

Modelling conventions:
  * The Python `Dict[str, ChatSession]` is a function `String → Option ChatSession`.
  * `datetime.utcnow()` values are abstract clock ticks (`Nat`) supplied as a
    `now` parameter at each mutating call.
  * `uuid.uuid4()` is an id supplied by the caller as a `genId` parameter.
  * The external OpenAI completion call is a parameter
    `provider : model → max_tokens → temperature → transcript → Except ProviderError String`
    returning the assistant message text or failing; `str.strip()` on the
    returned text is modelled by `pyStrip`.
  * Python truthiness on optional strings (`if not session_id`, `if system_prompt:`)
    is `truthy`: an optional string is truthy iff it is present and non-empty.
  * Pydantic field validation (`ChatRequest`, `chat_models.py` lines 22-28) runs
    before the route handler body; it is embedded as a guard at route entry.
-/

namespace MockInterviewer

/-- `MessageRole` enum of `chat_models.py`. -/
inductive MessageRole where
  | user
  | assistant
  | system
deriving DecidableEq, Repr

/-- The wire string of a role (`MessageRole(str, Enum)` values). -/
def MessageRole.value : MessageRole → String
  | .user => "user"
  | .assistant => "assistant"
  | .system => "system"

/-- `ChatMessage` of `chat_models.py`. -/
structure ChatMessage where
  role : MessageRole
  content : String
  timestamp : Nat
deriving DecidableEq, Repr

/-- `ChatSession` of `chat_models.py`. -/
structure ChatSession where
  session_id : String
  messages : List ChatMessage
  created_at : Nat
  updated_at : Nat
  metadata : List (String × String)
deriving DecidableEq, Repr

/-- The in-memory session store `self.sessions : Dict[str, ChatSession]`. -/
abbrev Store := String → Option ChatSession

/-- Dictionary assignment `self.sessions[id] = session`. -/
def Store.insert (σ : Store) (id : String) (s : ChatSession) : Store :=
  fun k => if k = id then some s else σ k

/-- Dictionary deletion `del self.sessions[id]`. -/
def Store.erase (σ : Store) (id : String) : Store :=
  fun k => if k = id then none else σ k

/-- Python truthiness of an optional string: truthy iff present and non-empty. -/
def truthy : Option String → Bool
  | none => false
  | some s => s != ""

/-- The messages a new session is seeded with: one system message when the
system prompt is truthy (`create_session`, `if system_prompt:`). -/
def seed_messages (system_prompt : Option String) (now : Nat) : List ChatMessage :=
  match system_prompt with
  | some p => if p != "" then [{ role := .system, content := p, timestamp := now }] else []
  | none => []

/-- `OpenAIChatClient.create_session` (openai_client.py lines 29-42): pick the
given id or the generated one, build a session seeded from the system prompt,
and store it; returns the id used and the new store. -/
def create_session (σ : Store) (session_id : Option String)
    (system_prompt : Option String) (genId : String) (now : Nat) : String × Store :=
  let sid := match session_id with
    | none => genId
    | some s => s
  (sid, σ.insert sid
    { session_id := sid, messages := seed_messages system_prompt now,
      created_at := now, updated_at := now, metadata := [] })

/-- `OpenAIChatClient.get_session`: `self.sessions.get(session_id)`. -/
def get_session (σ : Store) (session_id : String) : Option ChatSession :=
  σ session_id

/-- `OpenAIChatClient.delete_session` (lines 48-54): remove if present,
return whether it existed. -/
def delete_session (σ : Store) (session_id : String) : Bool × Store :=
  match σ session_id with
  | some _ => (true, σ.erase session_id)
  | none => (false, σ)

/-- `OpenAIChatClient.add_message_to_session` (lines 72-81): false when the
session is absent; otherwise append the message and refresh `updated_at`. -/
def add_message_to_session (σ : Store) (session_id : String) (role : MessageRole)
    (content : String) (now : Nat) : Bool × Store :=
  match σ session_id with
  | none => (false, σ)
  | some sess =>
    (true, σ.insert session_id
      { sess with
        messages := sess.messages ++ [{ role := role, content := content, timestamp := now }],
        updated_at := now })

/-- `OpenAIChatClient.get_session_messages_for_api` (lines 83-95): the session
transcript as (role string, content) pairs, oldest first; empty when absent. -/
def get_session_messages_for_api (σ : Store) (session_id : String) :
    List (String × String) :=
  match σ session_id with
  | none => []
  | some sess => sess.messages.map (fun m => (m.role.value, m.content))

/-- `OpenAIChatClient.get_session_context` (lines 153-172). -/
structure SessionContext where
  session_id : String
  message_count : Nat
  created_at : Nat
  updated_at : Nat
  messages : List (String × String × Nat)
deriving DecidableEq, Repr

/-- `get_session_context`: `None` when absent, else metadata plus the message
list as (role, content, timestamp) triples. -/
def get_session_context (σ : Store) (session_id : String) : Option SessionContext :=
  match σ session_id with
  | none => none
  | some sess => some
    { session_id := session_id, message_count := sess.messages.length,
      created_at := sess.created_at, updated_at := sess.updated_at,
      messages := sess.messages.map (fun m => (m.role.value, m.content, m.timestamp)) }

/-- `OpenAIChatClient.clear_session_messages` (lines 174-189): false when
absent; else keep only system messages (or none) and refresh `updated_at`. -/
def clear_session_messages (σ : Store) (session_id : String) (keep_system : Bool)
    (now : Nat) : Bool × Store :=
  match σ session_id with
  | none => (false, σ)
  | some sess =>
    let msgs := if keep_system then
        sess.messages.filter (fun m => m.role == MessageRole.system)
      else []
    (true, σ.insert session_id { sess with messages := msgs, updated_at := now })

/-- Errors raised by the external completion call: `openai.APIError` versus any
other exception (both are logged and re-raised by `chat_completion`). -/
inductive ProviderError where
  | apiError (detail : String)
  | unexpected (detail : String)
deriving DecidableEq, Repr

/-- The external chat-completion provider: given model, max_tokens, temperature
and the ordered transcript, returns the assistant message text or fails. -/
abbrev Provider :=
  String → Option Int → Option ℚ → List (String × String) → Except ProviderError String

/-- Python's `str.strip()`: drop leading and trailing whitespace. Defined by
structural recursion on the character list so concrete runs evaluate. -/
def pyStrip (s : String) : String :=
  String.mk (((s.data.dropWhile Char.isWhitespace).reverse.dropWhile
    Char.isWhitespace).reverse)

/-- The first half of `chat_completion` (lines 112-121): ensure the session
exists (creating a bare one if not, the defensive branch), then append the
caller's message as role `user`. Returns the store seen by the provider call. -/
def chat_prepare (σ : Store) (session_id : String) (user_message : String)
    (now : Nat) : Store :=
  let σ₁ := match σ session_id with
    | none => (create_session σ (some session_id) none "" now).2
    | some _ => σ
  (add_message_to_session σ₁ session_id .user user_message now).2

/-- The transcript `messages_for_api` submitted to the provider for this turn:
the full session message list, user message of the turn included. -/
def transcript_sent (σ : Store) (session_id : String) (user_message : String)
    (now : Nat) : List (String × String) :=
  get_session_messages_for_api (chat_prepare σ session_id user_message now) session_id

/-- `OpenAIChatClient.chat_completion` (lines 97-151): ensure session, append
user message, call the provider on the full transcript; on success strip the
reply (`pyStrip` for `str.strip()`), append it as role `assistant` and
return (reply, session id, message count); on failure re-raise, leaving the
user message appended. -/
def chat_completion (σ : Store) (session_id : String) (user_message : String)
    (model : String) (max_tokens : Option Int) (temperature : Option ℚ)
    (provider : Provider) (now : Nat) :
    Except ProviderError (String × String × Nat) × Store :=
  let σ₂ := chat_prepare σ session_id user_message now
  let messages_for_api := get_session_messages_for_api σ₂ session_id
  match provider model max_tokens temperature messages_for_api with
  | .error e => (.error e, σ₂)
  | .ok content =>
    let assistant_message_content := pyStrip content
    let σ₃ := (add_message_to_session σ₂ session_id .assistant
        assistant_message_content now).2
    let message_count := match σ₃ session_id with
      | some s => s.messages.length
      | none => 0
    (.ok (assistant_message_content, session_id, message_count), σ₃)

/-- `ChatRequest` of `chat_models.py` (lines 22-28). -/
structure ChatRequest where
  message : String
  session_id : Option String
  system_prompt : Option String
  model : String
  max_tokens : Option Int
  temperature : Option ℚ
deriving DecidableEq, Repr

/-- Pydantic field validation of `ChatRequest`: `max_tokens` within `ge=1, le=4000`
and `temperature` within `ge=0.0, le=2.0` when present. -/
def ChatRequest.valid (r : ChatRequest) : Bool :=
  (match r.max_tokens with
    | none => true
    | some v => decide (1 ≤ v) && decide (v ≤ 4000)) &&
  (match r.temperature with
    | none => true
    | some v => decide (0 ≤ v) && decide (v ≤ 2))

/-- `ChatResponse` of `chat_models.py` (timestamp elided as it is freshly
generated, not derived from the store). -/
structure ChatResponse where
  response : String
  session_id : String
  message_count : Nat
deriving DecidableEq, Repr

/-- HTTP-level outcomes of the chat route: 422 pydantic rejection, 502 on
`openai.APIError`, 500 on any other exception. -/
inductive RouteError where
  | validation
  | badGateway (e : ProviderError)
  | internal (e : ProviderError)
deriving DecidableEq, Repr

/-- Session resolution of the chat route (`openai_chat.py` lines 48-55):
`if not session_id_to_use` create a fresh session (generated id), else if the
supplied id is unknown create it at that id; otherwise use it as is. -/
def resolve_session (σ : Store) (session_id : Option String)
    (system_prompt : Option String) (genId : String) (now : Nat) : String × Store :=
  if truthy session_id = false then
    create_session σ none system_prompt genId now
  else
    let s := session_id.getD ""
    match get_session σ s with
    | none => (s, (create_session σ (some s) system_prompt genId now).2)
    | some _ => (s, σ)

/-- `chat_with_openai` route (`openai_chat.py` lines 36-78): validate the
request (pydantic, before the body runs), resolve the session, run the turn,
map provider errors to HTTP errors. -/
def chat_with_openai (σ : Store) (req : ChatRequest) (genId : String)
    (provider : Provider) (now : Nat) : Except RouteError ChatResponse × Store :=
  if req.valid = false then (.error .validation, σ)
  else
    let r := resolve_session σ req.session_id req.system_prompt genId now
    match chat_completion r.2 r.1 req.message req.model req.max_tokens
        req.temperature provider now with
    | (.ok (text, sid, count), σ') =>
      (.ok { response := text, session_id := sid, message_count := count }, σ')
    | (.error (ProviderError.apiError d), σ') =>
      (.error (.badGateway (.apiError d)), σ')
    | (.error (ProviderError.unexpected d), σ') =>
      (.error (.internal (.unexpected d)), σ')

/-- Outcome of the delete route: 204 No Content or 404 Not Found. -/
inductive DeleteResult where
  | noContent
  | notFound
deriving DecidableEq, Repr

/-- `delete_openai_chat_session` route (`openai_chat.py` lines 93-102). -/
def delete_openai_chat_session (σ : Store) (session_id : String) :
    DeleteResult × Store :=
  match delete_session σ session_id with
  | (true, σ') => (.noContent, σ')
  | (false, σ') => (.notFound, σ')

/-- A sequence of successful chat turns on one session: each element is the
caller's user message paired to the provider's raw reply for that turn. -/
def run_turns (σ : Store) (session_id : String) (turns : List (String × String))
    (model : String) (max_tokens : Option Int) (temperature : Option ℚ)
    (now : Nat) : Store :=
  match turns with
  | [] => σ
  | (u, r) :: rest =>
    run_turns (chat_completion σ session_id u model max_tokens temperature
        (fun _ _ _ _ => .ok r) now).2 session_id rest model max_tokens temperature now

/-- Decidable equality on `Except`, for evaluating concrete runs. -/
instance exceptDecidableEq {ε α : Type} [DecidableEq ε] [DecidableEq α] :
    DecidableEq (Except ε α) := fun x y =>
  match x, y with
  | .error a, .error b =>
    if h : a = b then .isTrue (by rw [h]) else .isFalse (fun hc => h (Except.error.inj hc))
  | .error _, .ok _ => .isFalse (fun hc => Except.noConfusion hc)
  | .ok _, .error _ => .isFalse (fun hc => Except.noConfusion hc)
  | .ok a, .ok b =>
    if h : a = b then .isTrue (by rw [h]) else .isFalse (fun hc => h (Except.ok.inj hc))

theorem Store.insert_self (σ : Store) (id : String) (s : ChatSession) :
    σ.insert id s id = some s := by
  simp [Store.insert]

theorem Store.insert_ne (σ : Store) (id t : String) (s : ChatSession) (h : t ≠ id) :
    σ.insert id s t = σ t := by
  simp [Store.insert, h]

theorem Store.erase_self (σ : Store) (id : String) : σ.erase id id = none := by
  simp [Store.erase]

theorem Store.erase_ne (σ : Store) (id t : String) (h : t ≠ id) :
    σ.erase id t = σ t := by
  simp [Store.erase, h]

theorem Store.insert_insert (σ : Store) (id : String) (a b : ChatSession) :
    (σ.insert id a).insert id b = σ.insert id b := by
  funext k
  by_cases h : k = id <;> simp [Store.insert, h]

/-- On an existing session, `chat_prepare` appends the user message. -/
theorem chat_prepare_sid (σ : Store) (sid u : String) (now : Nat)
    (sess : ChatSession) (hs : σ sid = some sess) :
    chat_prepare σ sid u now = σ.insert sid
      { sess with
        messages := sess.messages ++ [{ role := .user, content := u, timestamp := now }],
        updated_at := now } := by
  unfold chat_prepare add_message_to_session
  simp [hs]

/-- The empty store. -/
def emptyStore : Store := fun _ => none

/-- A store holding one freshly created session `s1` (no system prompt). -/
def store_s1 : Store := (create_session emptyStore (some "s1") none "" 0).2

/-- The session record held at `s1` in `store_s1`. -/
def sess_s1 : ChatSession :=
  { session_id := "s1", messages := [], created_at := 0, updated_at := 0, metadata := [] }

/-- C1: on an existing session, if the provider call for the turn fails, the
error is re-raised (no fabricated response) and the session's message sequence
after the attempt is its sequence before the attempt extended by exactly the
one user message of the turn; no assistant message is appended. -/
theorem chat_completion_provider_failure (σ : Store) (sid : String)
    (sess : ChatSession) (u model : String) (mt : Option Int) (temp : Option ℚ)
    (provider : Provider) (e : ProviderError) (now : Nat)
    (hs : σ sid = some sess)
    (hp : provider model mt temp (transcript_sent σ sid u now) = .error e) :
    (chat_completion σ sid u model mt temp provider now).1 = .error e ∧
    (chat_completion σ sid u model mt temp provider now).2 sid =
      some { sess with
        messages := sess.messages ++
          [{ role := .user, content := u, timestamp := now }],
        updated_at := now } ∧
    ((chat_completion σ sid u model mt temp provider now).2 sid).map
        (fun s => s.messages.length) = some (sess.messages.length + 1) := by
  have hprep := chat_prepare_sid σ sid u now sess hs
  rw [show transcript_sent σ sid u now =
    get_session_messages_for_api (chat_prepare σ sid u now) sid from rfl,
    hprep] at hp
  unfold chat_completion
  simp only [hprep, hp, Store.insert_self]
  simp

/-- C1 witness: concrete failing turn on session `s1`. -/
theorem chat_completion_provider_failure_witness :
    (chat_completion store_s1 "s1" "Hello" "m" none none
        (fun _ _ _ _ => .error (.apiError "quota")) 0).1 =
      .error (.apiError "quota") ∧
    (chat_completion store_s1 "s1" "Hello" "m" none none
        (fun _ _ _ _ => .error (.apiError "quota")) 0).2 "s1" =
      some { sess_s1 with
        messages := [{ role := .user, content := "Hello", timestamp := 0 }],
        updated_at := 0 } := by
  have h := chat_completion_provider_failure store_s1 "s1" sess_s1 "Hello" "m"
    none none (fun _ _ _ _ => .error (.apiError "quota")) (.apiError "quota") 0
    (by decide) rfl
  exact ⟨h.1, by rw [h.2.1]; decide⟩

/-- C2 counterexample: the claim says the provider's reply is appended (and
returned) verbatim, but the code strips it; with reply `" Hi "` the stored and
returned assistant text is `"Hi"`, not `" Hi "`. -/
theorem chat_completion_reply_not_verbatim :
    (chat_completion store_s1 "s1" "Hello" "m" none none
        (fun _ _ _ _ => .ok " Hi ") 0).1 =
      .ok ("Hi", "s1", 2) ∧
    ((chat_completion store_s1 "s1" "Hello" "m" none none
        (fun _ _ _ _ => .ok " Hi ") 0).2 "s1").map
      (fun s => s.messages.map fun m => (m.role, m.content)) =
      some [(MessageRole.user, "Hello"), (MessageRole.assistant, "Hi")] ∧
    ¬ ((chat_completion store_s1 "s1" "Hello" "m" none none
        (fun _ _ _ _ => .ok " Hi ") 0).2 "s1").map
      (fun s => s.messages.map fun m => (m.role, m.content)) =
      some [(MessageRole.user, "Hello"), (MessageRole.assistant, " Hi ")] := by
  refine ⟨by decide, by decide, by decide⟩

/-- C2 (amended): on an existing session, a successful turn appends the user
message then the provider's reply stripped of leading/trailing whitespace as
the assistant message, and returns (stripped reply, session id, message count
after both appends); the count grows by exactly 2. -/
theorem chat_completion_success (σ : Store) (sid : String) (sess : ChatSession)
    (u model r : String) (mt : Option Int) (temp : Option ℚ)
    (provider : Provider) (now : Nat)
    (hs : σ sid = some sess)
    (hp : provider model mt temp (transcript_sent σ sid u now) = .ok r) :
    (chat_completion σ sid u model mt temp provider now).1 =
      .ok (pyStrip r, sid, sess.messages.length + 2) ∧
    (chat_completion σ sid u model mt temp provider now).2 sid =
      some { sess with
        messages := sess.messages ++
          [{ role := .user, content := u, timestamp := now },
           { role := .assistant, content := pyStrip r, timestamp := now }],
        updated_at := now } := by
  have hprep := chat_prepare_sid σ sid u now sess hs
  rw [show transcript_sent σ sid u now =
    get_session_messages_for_api (chat_prepare σ sid u now) sid from rfl,
    hprep] at hp
  unfold chat_completion add_message_to_session
  simp only [hprep, hp, Store.insert_self, Store.insert_insert]
  simp

/-- C2 witness: Scenario A shaped turn on session `s1`. -/
theorem chat_completion_success_witness :
    (chat_completion store_s1 "s1" "Hello" "m" none none
        (fun _ _ _ _ => .ok "Hi there!") 0).1 =
      .ok ("Hi there!", "s1", 2) ∧
    (chat_completion store_s1 "s1" "Hello" "m" none none
        (fun _ _ _ _ => .ok "Hi there!") 0).2 "s1" =
      some { sess_s1 with
        messages := [{ role := .user, content := "Hello", timestamp := 0 },
                     { role := .assistant, content := "Hi there!", timestamp := 0 }],
        updated_at := 0 } := by
  have h := chat_completion_success store_s1 "s1" sess_s1 "Hello" "m" "Hi there!"
    none none (fun _ _ _ _ => .ok "Hi there!") 0 (by decide) rfl
  exact ⟨by rw [h.1]; decide, by rw [h.2]; decide⟩

/-- The two messages recorded by one successful turn: the caller's message as
role user, then the stripped provider reply as role assistant. -/
def turn_pair (t : String × String) (now : Nat) : List ChatMessage :=
  [{ role := .user, content := t.1, timestamp := now },
   { role := .assistant, content := pyStrip t.2, timestamp := now }]

/-- One successful turn rewrites the session entry by appending its pair. -/
theorem chat_completion_ok_store (σ : Store) (sid u r model : String)
    (mt : Option Int) (temp : Option ℚ) (now : Nat) (sess : ChatSession)
    (hs : σ sid = some sess) :
    (chat_completion σ sid u model mt temp (fun _ _ _ _ => .ok r) now).2 =
      σ.insert sid { sess with
        messages := sess.messages ++ turn_pair (u, r) now,
        updated_at := now } := by
  have hprep := chat_prepare_sid σ sid u now sess hs
  unfold chat_completion add_message_to_session
  simp only [hprep, Store.insert_self, Store.insert_insert]
  simp [turn_pair]

/-- After any list of successful turns, the session holds its starting
messages followed by the turn pairs, in call order. -/
theorem run_turns_sid (turns : List (String × String)) (σ : Store)
    (sid model : String) (mt : Option Int) (temp : Option ℚ) (now : Nat)
    (sess : ChatSession) (hs : σ sid = some sess) :
    ∃ ts : Nat, run_turns σ sid turns model mt temp now sid =
      some { sess with
        messages := sess.messages ++ turns.flatMap (fun t => turn_pair t now),
        updated_at := ts } := by
  induction turns generalizing σ sess with
  | nil =>
    refine ⟨sess.updated_at, ?_⟩
    simp only [run_turns]
    rw [hs]
    cases sess
    simp
  | cons t rest ih =>
    obtain ⟨u, r⟩ := t
    have hstep := chat_completion_ok_store σ sid u r model mt temp now sess hs
    obtain ⟨ts, hts⟩ := ih (σ.insert sid
        { sess with messages := sess.messages ++ turn_pair (u, r) now, updated_at := now })
      { sess with messages := sess.messages ++ turn_pair (u, r) now, updated_at := now }
      (Store.insert_self ..)
    refine ⟨ts, ?_⟩
    simp only [run_turns]
    rw [hstep, hts]
    cases sess
    simp

/-- C3: the transcript submitted to the provider on any turn is exactly the
session's full message sequence at that point — the optional leading system
seed, then the user/assistant pairs of the earlier turns in call order, then
the current turn's user message — as (role, content) pairs, oldest first. -/
theorem transcript_sent_is_full_history (σ : Store) (sid : String)
    (sp : Option String) (done : List (String × String)) (u model : String)
    (mt : Option Int) (temp : Option ℚ) (now : Nat) :
    transcript_sent
        (run_turns (create_session σ (some sid) sp "" now).2 sid done model mt temp now)
        sid u now =
      ((seed_messages sp now ++ done.flatMap (fun t => turn_pair t now)) ++
        [({ role := .user, content := u, timestamp := now } : ChatMessage)]).map
        (fun m => (m.role.value, m.content)) := by
  have h0 : (create_session σ (some sid) sp "" now).2 sid =
      some { session_id := sid, messages := seed_messages sp now,
             created_at := now, updated_at := now, metadata := [] } := by
    unfold create_session
    exact Store.insert_self ..
  obtain ⟨ts, hts⟩ := run_turns_sid done _ sid model mt temp now _ h0
  unfold transcript_sent
  rw [chat_prepare_sid _ sid u now _ hts]
  unfold get_session_messages_for_api
  rw [Store.insert_self]

/-- C4 counterexample: with provider reply `" Hi "`, the stored assistant
message content is the stripped `"Hi"`; the session does not replay the reply
verbatim. -/
theorem session_replay_not_verbatim :
    ((run_turns store_s1 "s1" [("Hello", " Hi ")] "m" none none 1) "s1").map
      (fun s => s.messages.map fun m => (m.role, m.content)) =
      some [(MessageRole.user, "Hello"), (MessageRole.assistant, "Hi")] ∧
    ¬ ((run_turns store_s1 "s1" [("Hello", " Hi ")] "m" none none 1) "s1").map
      (fun s => s.messages.map fun m => (m.role, m.content)) =
      some [(MessageRole.user, "Hello"), (MessageRole.assistant, " Hi ")] := by
  exact ⟨by decide, by decide⟩

/-- C4 (amended): a session created by `create_session` and driven through any
sequence of successful turns stores, in order: the seed messages, then for
each turn the caller's message verbatim as role user followed by the
provider's reply stripped of leading/trailing whitespace as role assistant —
roles preserved, no reordering, no loss (verbatim when the reply carries no
surrounding whitespace). -/
theorem session_replay (σ : Store) (sid : String) (sp : Option String)
    (turns : List (String × String)) (model : String) (mt : Option Int)
    (temp : Option ℚ) (now : Nat) :
    ((run_turns (create_session σ (some sid) sp "" now).2 sid turns model mt temp now) sid).map
      (fun s => s.messages.map fun m => (m.role, m.content)) =
      some ((seed_messages sp now).map (fun m => (m.role, m.content)) ++
        turns.flatMap fun t =>
          [(MessageRole.user, t.1), (MessageRole.assistant, pyStrip t.2)]) := by
  have h0 : (create_session σ (some sid) sp "" now).2 sid =
      some { session_id := sid, messages := seed_messages sp now,
             created_at := now, updated_at := now, metadata := [] } := by
    unfold create_session
    exact Store.insert_self ..
  obtain ⟨ts, hts⟩ := run_turns_sid turns _ sid model mt temp now _ h0
  rw [hts]
  simp [turn_pair, List.map_flatMap]

/-- C5 counterexample: the empty string is a supplied session id, yet the
route treats it as absent (Python falsiness of `""`): with `session_id=""`
over an empty store no session is created at `""` — the resolved id is the
generated one. Likewise a supplied empty system prompt seeds no system
message. -/
theorem resolve_session_empty_id_counterexample :
    (resolve_session emptyStore (some "") none "gen-1" 0).1 = "gen-1" ∧
    (resolve_session emptyStore (some "") none "gen-1" 0).1 ≠ "" ∧
    (resolve_session emptyStore (some "") none "gen-1" 0).2 "" = none ∧
    ((resolve_session emptyStore (some "s1") (some "") "gen-1" 0).2 "s1").map
      (fun s => s.messages) = some [] := by
  exact ⟨by decide, by decide, by decide, by decide⟩

/-- C5 (amended): before the provider call the route resolves the session:
when the supplied id is missing or empty (falsy), a new session is created at
the generated id; when a non-empty id is supplied but unknown, a session is
created at exactly that id; when a session exists under the supplied
non-empty id, it is used with the store unchanged. Created sessions are
seeded with one system message exactly when a non-empty system prompt is
supplied. -/
theorem resolve_session_behavior (σ : Store) (sp : Option String)
    (genId : String) (now : Nat) :
    (∀ sid_opt : Option String, truthy sid_opt = false →
       (resolve_session σ sid_opt sp genId now).1 = genId ∧
       (resolve_session σ sid_opt sp genId now).2 genId =
         some { session_id := genId, messages := seed_messages sp now,
                created_at := now, updated_at := now, metadata := [] }) ∧
    (∀ s : String, s ≠ "" → σ s = none →
       (resolve_session σ (some s) sp genId now).1 = s ∧
       (resolve_session σ (some s) sp genId now).2 s =
         some { session_id := s, messages := seed_messages sp now,
                created_at := now, updated_at := now, metadata := [] }) ∧
    (∀ (s : String) (sess : ChatSession), s ≠ "" → σ s = some sess →
       resolve_session σ (some s) sp genId now = (s, σ)) ∧
    (∀ p : String, p ≠ "" →
       seed_messages (some p) now =
         [{ role := .system, content := p, timestamp := now }]) ∧
    (truthy sp = false → seed_messages sp now = []) := by
  refine ⟨?_, ?_, ?_, ?_, ?_⟩
  · intro sid_opt h
    unfold resolve_session create_session
    rw [if_pos h]
    exact ⟨rfl, Store.insert_self ..⟩
  · intro s hne hσ
    have ht : truthy (some s) = true := by
      simp [truthy, hne]
    unfold resolve_session get_session create_session
    rw [if_neg (by simp [ht])]
    simp only [Option.getD_some]
    rw [hσ]
    exact ⟨rfl, Store.insert_self ..⟩
  · intro s sess hne hσ
    have ht : truthy (some s) = true := by
      simp [truthy, hne]
    unfold resolve_session get_session
    rw [if_neg (by simp [ht])]
    simp only [Option.getD_some]
    rw [hσ]
  · intro p hp
    simp [seed_messages, hp]
  · intro h
    cases hsp : sp with
    | none => simp [seed_messages]
    | some p =>
      rw [hsp] at h
      simp only [truthy] at h
      simp [seed_messages, h]

/-- C5 witness: fresh creation at a supplied unknown non-empty id, and reuse
of an existing session, at concrete inputs. -/
theorem resolve_session_behavior_witness :
    (resolve_session emptyStore (some "s2") none "g" 0).1 = "s2" ∧
    (resolve_session emptyStore (some "s2") none "g" 0).2 "s2" =
      some { session_id := "s2", messages := [], created_at := 0,
             updated_at := 0, metadata := [] } ∧
    resolve_session store_s1 (some "s1") none "g" 0 = ("s1", store_s1) := by
  have h1 := ((resolve_session_behavior emptyStore none "g" 0).2.1 "s2"
    (by decide) rfl)
  have h2 := ((resolve_session_behavior store_s1 none "g" 0).2.2.1 "s1" sess_s1
    (by decide) (by decide))
  exact ⟨h1.1, by rw [h1.2]; decide, h2⟩

/-- C6: `delete_session` returns true exactly on an existing id and removes
the entry: afterwards `get_session_context` reports not-found, a second
`delete_session` returns false and the delete route answers 404 Not Found;
on an id with no session `delete_session` returns false. -/
theorem delete_session_finality (σ : Store) (sid : String) (sess : ChatSession)
    (hs : σ sid = some sess) :
    (delete_session σ sid).1 = true ∧
    (delete_session σ sid).2 sid = none ∧
    get_session_context (delete_session σ sid).2 sid = none ∧
    (delete_session (delete_session σ sid).2 sid).1 = false ∧
    (delete_openai_chat_session (delete_session σ sid).2 sid).1 =
      DeleteResult.notFound ∧
    (∀ σ' : Store, σ' sid = none → (delete_session σ' sid).1 = false) := by
  have h1 : delete_session σ sid = (true, σ.erase sid) := by
    unfold delete_session
    rw [hs]
  have h1a : (delete_session σ sid).1 = true := by rw [h1]
  have h1b : (delete_session σ sid).2 = σ.erase sid := by rw [h1]
  have h2 : (σ.erase sid) sid = none := Store.erase_self σ sid
  have h3 : delete_session (σ.erase sid) sid = (false, σ.erase sid) := by
    unfold delete_session
    rw [h2]
  refine ⟨h1a, by rw [h1b]; exact h2, ?_, ?_, ?_, ?_⟩
  · rw [h1b]
    unfold get_session_context
    rw [h2]
  · rw [h1b, h3]
  · rw [h1b]
    unfold delete_openai_chat_session
    rw [h3]
  · intro σ' h'
    unfold delete_session
    rw [h']

/-- C6 witness: delete the concrete session `s1`. -/
theorem delete_session_finality_witness :
    (delete_session store_s1 "s1").1 = true ∧
    (delete_session store_s1 "s1").2 "s1" = none ∧
    get_session_context (delete_session store_s1 "s1").2 "s1" = none ∧
    (delete_session (delete_session store_s1 "s1").2 "s1").1 = false := by
  have h := delete_session_finality store_s1 "s1" sess_s1 (by decide)
  exact ⟨h.1, h.2.1, h.2.2.1, h.2.2.2.1⟩

/-- C7: a chat request whose `max_tokens` lies outside [1, 4000] or whose
`temperature` lies outside [0, 2] is rejected with a validation error before
any session is created or mutated: the store after the rejected request is
pointwise identical to the store before it. -/
theorem chat_request_validation_rejection (σ : Store) (req : ChatRequest)
    (genId : String) (provider : Provider) (now : Nat)
    (h : (∃ v, req.max_tokens = some v ∧ (v < 1 ∨ 4000 < v)) ∨
         (∃ q, req.temperature = some q ∧ (q < 0 ∨ 2 < q))) :
    (chat_with_openai σ req genId provider now).1 = .error .validation ∧
    ∀ t, (chat_with_openai σ req genId provider now).2 t = σ t := by
  have hv : req.valid = false := by
    unfold ChatRequest.valid
    rcases h with ⟨v, hm, hb⟩ | ⟨q, hm, hb⟩
    · rw [hm]
      rcases hb with hb | hb
      · simp [show ¬ (1 ≤ v) by omega]
      · simp [show ¬ (v ≤ 4000) by omega]
    · rw [hm]
      rcases hb with hb | hb
      · simp [show ¬ (0 ≤ q) from not_le.mpr hb]
      · simp [show ¬ (q ≤ 2) from not_le.mpr hb]
  unfold chat_with_openai
  rw [if_pos hv]
  exact ⟨rfl, fun t => rfl⟩

/-- C7 witness: Scenario C, `max_tokens=5000` is rejected, store untouched. -/
theorem chat_request_validation_rejection_witness :
    (chat_with_openai emptyStore
      { message := "x", session_id := none, system_prompt := none,
        model := "m", max_tokens := some 5000, temperature := some 1 }
      "g" (fun _ _ _ _ => .ok "y") 0).1 = .error .validation ∧
    (chat_with_openai emptyStore
      { message := "x", session_id := none, system_prompt := none,
        model := "m", max_tokens := some 5000, temperature := some 1 }
      "g" (fun _ _ _ _ => .ok "y") 0).2 "g" = emptyStore "g" := by
  have h := chat_request_validation_rejection emptyStore
    { message := "x", session_id := none, system_prompt := none,
      model := "m", max_tokens := some 5000, temperature := some 1 }
    "g" (fun _ _ _ _ => .ok "y") 0
    (Or.inl ⟨5000, rfl, Or.inr (by norm_num)⟩)
  exact ⟨h.1, h.2 "g"⟩

/-- Store `store_s1` after one successful turn: session `s1` holds 2 messages. -/
def store_s1_2msgs : Store :=
  run_turns store_s1 "s1" [("q1", "a1")] "m" none none 1

/-- A session with 1 system message followed by 4 other messages. -/
def sess_sysmix : ChatSession :=
  { session_id := "s1",
    messages :=
      [{ role := .system, content := "Be terse.", timestamp := 0 },
       { role := .user, content := "q1", timestamp := 1 },
       { role := .assistant, content := "a1", timestamp := 1 },
       { role := .user, content := "q2", timestamp := 2 },
       { role := .assistant, content := "a2", timestamp := 2 }],
    created_at := 0, updated_at := 2, metadata := [] }

/-- A store holding `sess_sysmix` at `s1`. -/
def store_sysmix : Store := Store.insert emptyStore "s1" sess_sysmix

/-- C8 counterexample: `message_count` is not non-decreasing across all store
operations: `clear_session_messages` shrinks the count of `s1` from 2 to 0. -/
theorem message_count_decreases_on_clear :
    ((store_s1_2msgs "s1").map fun s => s.messages.length) = some 2 ∧
    (((clear_session_messages store_s1_2msgs "s1" false 2).2 "s1").map
      fun s => s.messages.length) = some 0 ∧
    ¬ (2 : Nat) ≤ 0 := by
  exact ⟨by decide, by decide, by decide⟩

/-- C8 (amended): a successful `append` increases the session's message count
by exactly 1 and sets `updated_at` to the call's clock, so the count is
non-decreasing across append operations; on an absent session `append`
returns false and leaves the store unchanged. -/
theorem add_message_spec (σ : Store) (sid content : String) (role : MessageRole)
    (now : Nat) :
    (∀ sess : ChatSession, σ sid = some sess →
       (add_message_to_session σ sid role content now).1 = true ∧
       ((add_message_to_session σ sid role content now).2 sid).map
         (fun s => s.messages.length) = some (sess.messages.length + 1) ∧
       ((add_message_to_session σ sid role content now).2 sid).map
         ChatSession.updated_at = some now) ∧
    (σ sid = none →
       add_message_to_session σ sid role content now = (false, σ)) := by
  constructor
  · intro sess hs
    unfold add_message_to_session
    rw [hs]
    refine ⟨rfl, ?_, ?_⟩ <;> simp [Store.insert_self]
  · intro hnone
    unfold add_message_to_session
    rw [hnone]

/-- C8 witness: append to the concrete empty-history session `s1`, and to an
absent id. -/
theorem add_message_spec_witness :
    (add_message_to_session store_s1 "s1" .user "hey" 3).1 = true ∧
    ((add_message_to_session store_s1 "s1" .user "hey" 3).2 "s1").map
      (fun s => s.messages.length) = some 1 ∧
    ((add_message_to_session store_s1 "s1" .user "hey" 3).2 "s1").map
      ChatSession.updated_at = some 3 ∧
    add_message_to_session emptyStore "nope" .user "hey" 3 = (false, emptyStore) := by
  have h := (add_message_spec store_s1 "s1" "hey" .user 3).1 sess_s1 (by decide)
  have habs := (add_message_spec emptyStore "nope" "hey" .user 3).2 rfl
  exact ⟨h.1, by rw [h.2.1]; decide, h.2.2, habs⟩

/-- C9: on an existing session, `clear(id, keep_system=true)` replaces the
message sequence by exactly the subsequence of system-role messages (a
sublist — original relative order, only system roles, none of them dropped),
and `clear(id, keep_system=false)` replaces it by the empty sequence; both
return true and refresh `updated_at`; on an absent id clear returns false
with the store unchanged. -/
theorem clear_session_spec (σ : Store) (sid : String) (now : Nat) :
    (∀ sess : ChatSession, σ sid = some sess →
       clear_session_messages σ sid true now =
         (true, σ.insert sid { sess with
            messages := sess.messages.filter (fun m => m.role == MessageRole.system),
            updated_at := now }) ∧
       clear_session_messages σ sid false now =
         (true, σ.insert sid { sess with messages := [], updated_at := now }) ∧
       (∃ sess' : ChatSession,
          (clear_session_messages σ sid true now).2 sid = some sess' ∧
          sess'.updated_at = now ∧
          List.Sublist sess'.messages sess.messages ∧
          (∀ m ∈ sess'.messages, m.role = MessageRole.system) ∧
          (∀ m ∈ sess.messages, m.role = MessageRole.system → m ∈ sess'.messages)) ∧
       ((clear_session_messages σ sid false now).2 sid).map
         (fun s => s.messages) = some []) ∧
    (σ sid = none → ∀ ks : Bool,
       clear_session_messages σ sid ks now = (false, σ)) := by
  constructor
  · intro sess hs
    have h1 : clear_session_messages σ sid true now =
        (true, σ.insert sid { sess with
          messages := sess.messages.filter (fun m => m.role == MessageRole.system),
          updated_at := now }) := by
      unfold clear_session_messages
      rw [hs]
      rfl
    have h2 : clear_session_messages σ sid false now =
        (true, σ.insert sid { sess with messages := [], updated_at := now }) := by
      unfold clear_session_messages
      rw [hs]
      rfl
    refine ⟨h1, h2, ?_, ?_⟩
    · refine ⟨{ sess with
          messages := sess.messages.filter (fun m => m.role == MessageRole.system),
          updated_at := now }, ?_, rfl, ?_, ?_, ?_⟩
      · rw [h1]
        exact Store.insert_self ..
      · exact List.filter_sublist sess.messages
      · intro m hm
        have := List.of_mem_filter hm
        simpa using this
      · intro m hm hrole
        refine List.mem_filter.mpr ⟨hm, ?_⟩
        simp [hrole]
    · rw [h2]
      simp [Store.insert_self]
  · intro hnone ks
    unfold clear_session_messages
    rw [hnone]

/-- C9 witness: Scenario D shaped — a session with 1 system and 4 other
messages cleared with `keep_system=true` keeps exactly the system message. -/
theorem clear_session_spec_witness :
    clear_session_messages store_s1 "s1" false 4 =
      (true, Store.insert store_s1 "s1"
        { sess_s1 with messages := [], updated_at := 4 }) ∧
    ((clear_session_messages store_sysmix "s1" true 9).2 "s1").map
      (fun s => s.messages) =
      some [{ role := .system, content := "Be terse.", timestamp := 0 }] := by
  have h := ((clear_session_spec store_s1 "s1" 4).1 sess_s1 (by decide)).2.1
  exact ⟨h, by decide⟩

/-- `chat_prepare` writes only at the addressed id. -/
theorem chat_prepare_ne (σ : Store) (s t u : String) (now : Nat) (h : t ≠ s) :
    chat_prepare σ s u now t = σ t := by
  unfold chat_prepare create_session add_message_to_session
  cases hσ : σ s with
  | none => simp [hσ, Store.insert, h]
  | some sess => simp [hσ, Store.insert, h]

/-- A chat turn writes only at the addressed id, whatever the provider does. -/
theorem chat_completion_ne (σ : Store) (s t u model : String)
    (mt : Option Int) (temp : Option ℚ) (provider : Provider) (now : Nat)
    (h : t ≠ s) :
    (chat_completion σ s u model mt temp provider now).2 t = σ t := by
  unfold chat_completion add_message_to_session
  cases hp : provider model mt temp
      (get_session_messages_for_api (chat_prepare σ s u now) s) with
  | error e =>
    simp only [hp]
    exact chat_prepare_ne σ s t u now h
  | ok c =>
    simp only [hp]
    cases hq : chat_prepare σ s u now s with
    | none =>
      simp only [hq]
      exact chat_prepare_ne σ s t u now h
    | some sess =>
      simp only [hq]
      rw [Store.insert_ne _ _ _ _ h]
      exact chat_prepare_ne σ s t u now h

/-- `chat_prepare` reads only the addressed entry. -/
theorem chat_prepare_agree (σ σ' : Store) (s u : String) (now : Nat)
    (hag : σ' s = σ s) :
    chat_prepare σ' s u now s = chat_prepare σ s u now s := by
  unfold chat_prepare create_session add_message_to_session
  rw [hag]
  cases hσ : σ s with
  | none => simp [Store.insert]
  | some sess => simp [hag, hσ, Store.insert]

/-- A chat turn reads only the addressed entry: on stores agreeing there, it
returns the same outcome and leaves the same entry. -/
theorem chat_completion_agree (σ σ' : Store) (s u model : String)
    (mt : Option Int) (temp : Option ℚ) (provider : Provider) (now : Nat)
    (hag : σ' s = σ s) :
    (chat_completion σ' s u model mt temp provider now).1 =
      (chat_completion σ s u model mt temp provider now).1 ∧
    (chat_completion σ' s u model mt temp provider now).2 s =
      (chat_completion σ s u model mt temp provider now).2 s := by
  have hprep := chat_prepare_agree σ σ' s u now hag
  have htr : get_session_messages_for_api (chat_prepare σ' s u now) s =
      get_session_messages_for_api (chat_prepare σ s u now) s := by
    unfold get_session_messages_for_api
    rw [hprep]
  unfold chat_completion add_message_to_session
  simp only [htr]
  cases hp : provider model mt temp
      (get_session_messages_for_api (chat_prepare σ s u now) s) with
  | error e =>
    simp only [hp]
    exact ⟨trivial, hprep⟩
  | ok c =>
    simp only [hp]
    cases hq : chat_prepare σ s u now s with
    | none =>
      have hq' : chat_prepare σ' s u now s = none := by rw [hprep, hq]
      simp only [hq, hq']
      exact ⟨trivial, trivial⟩
    | some sess =>
      have hq' : chat_prepare σ' s u now s = some sess := by rw [hprep, hq]
      simp only [hq, hq', Store.insert_self]
      exact ⟨trivial, trivial⟩

/-- C10: operations addressed to session `s` never touch the entry of a
different id `t` — create, append, delete, clear and a full chat turn all
leave `σ t` unchanged — and an operation on `s` reads only the entry at `s`:
a chat turn (and a context read) behaves identically on any two stores
agreeing at `s`. -/
theorem operations_frame (σ : Store) (s t : String) (h : t ≠ s)
    (sp : Option String) (genId u content model : String) (role : MessageRole)
    (ks : Bool) (mt : Option Int) (temp : Option ℚ) (provider : Provider)
    (now : Nat) :
    ((create_session σ (some s) sp genId now).2 t = σ t) ∧
    ((add_message_to_session σ s role content now).2 t = σ t) ∧
    ((delete_session σ s).2 t = σ t) ∧
    ((clear_session_messages σ s ks now).2 t = σ t) ∧
    ((chat_completion σ s u model mt temp provider now).2 t = σ t) ∧
    (∀ σ' : Store, σ' s = σ s →
       (chat_completion σ' s u model mt temp provider now).1 =
         (chat_completion σ s u model mt temp provider now).1 ∧
       (chat_completion σ' s u model mt temp provider now).2 s =
         (chat_completion σ s u model mt temp provider now).2 s) ∧
    (∀ σ' : Store, σ' s = σ s →
       get_session_context σ' s = get_session_context σ s) := by
  refine ⟨?_, ?_, ?_, ?_, chat_completion_ne σ s t u model mt temp provider now h,
    fun σ' hag => chat_completion_agree σ σ' s u model mt temp provider now hag,
    ?_⟩
  · unfold create_session
    exact Store.insert_ne _ _ _ _ h
  · unfold add_message_to_session
    cases hσ : σ s with
    | none => rfl
    | some sess => exact Store.insert_ne _ _ _ _ h
  · unfold delete_session
    cases hσ : σ s with
    | none => rfl
    | some sess => exact Store.erase_ne _ _ _ h
  · unfold clear_session_messages
    cases hσ : σ s with
    | none => rfl
    | some sess => exact Store.insert_ne _ _ _ _ h
  · intro σ' hag
    unfold get_session_context
    rw [hag]

/-- C10 witness: concrete operations on `s1` leave the entry `t2` unchanged,
and a turn on two stores agreeing at `s1` gives the same outcome. -/
theorem operations_frame_witness :
    (add_message_to_session store_s1 "s1" .user "x" 1).2 "t2" = store_s1 "t2" ∧
    (delete_session store_s1 "s1").2 "t2" = store_s1 "t2" ∧
    (clear_session_messages store_s1 "s1" true 1).2 "t2" = store_s1 "t2" ∧
    (chat_completion store_s1 "s1" "x" "m" none none
      (fun _ _ _ _ => .ok "y") 1).2 "t2" = store_s1 "t2" ∧
    (chat_completion store_sysmix "s1" "x" "m" none none
        (fun _ _ _ _ => .ok "y") 1).1 =
      (chat_completion (Store.insert store_s1 "s1" sess_sysmix) "s1" "x" "m"
        none none (fun _ _ _ _ => .ok "y") 1).1 := by
  have h := operations_frame (Store.insert store_s1 "s1" sess_sysmix) "s1" "t2"
    (by decide) none "g" "x" "x" "m" .user true none none
    (fun _ _ _ _ => .ok "y") 1
  have h2 := operations_frame store_s1 "s1" "t2" (by decide) none "g" "x" "x"
    "m" .user true none none (fun _ _ _ _ => .ok "y") 1
  exact ⟨h2.2.1, h2.2.2.1, h2.2.2.2.1, h2.2.2.2.2.1,
    (h.2.2.2.2.2.1 store_sysmix (by decide)).1⟩

end MockInterviewer
